import Mathlib

/-!
Shallow embedding of the client-side session-synchronization engine of the
watch-party frontend (src/src/App.js, the WatchParty component).

Modelling conventions:
  - Machine times and playback positions are rationals (seconds or
    coordinator-clock milliseconds), since the JS arithmetic involved is
    plain +, -, /, abs on numbers.
  - The mutable refs and React state fields touched by the engine are
    collected in one record, RState; each event handler is a pure function
    from (surface behaviour, state) to an Effects record listing the new
    state, the surface commands issued, the socket emissions, the timers
    scheduled, and whether an uncaught exception escaped.
  - The external playback surface is an oracle: its current time and
    whether each of seekTo / playVideo / pauseVideo would throw when
    invoked.  A throwing command aborts the rest of the handler body, with
    all mutations made before the throw kept (JS ref mutation semantics).
  - The unbounded setTimeout retry loop of initPlayer is embedded as a
    per-attempt step function over a schedule of container availability.
-/

attribute [local semireducible] Rat.add Rat.sub Rat.mul Rat.inv

/-- Inbound coordinator snapshot (the session:state payload).  The field
serverTime is what the specification calls coordinatorTime. -/
structure Snapshot where
  version : Int
  videoId : Option String
  isPlaying : Bool
  playbackTimeAtLastEvent : ℚ
  lastEventAt : ℚ
  serverTime : ℚ
deriving Repr, DecidableEq

/-- Behaviour of the external playback surface during one handler run:
its reported current time, and whether each command throws when called. -/
structure Surface where
  currentTime : ℚ
  seekThrows : Bool
  playThrows : Bool
  pauseThrows : Bool
deriving Repr, DecidableEq

/-- The surface completes every command without throwing. -/
def Surface.noThrow (s : Surface) : Prop :=
  s.seekThrows = false ∧ s.playThrows = false ∧ s.pauseThrows = false

instance (s : Surface) : Decidable s.noThrow := by
  unfold Surface.noThrow; infer_instance

/-- The reconciliation state of one client: the refs and the React state
fields read or written by the synchronization engine. -/
structure RState where
  lastVersion : Int
  latestSessionState : Option Snapshot
  isLocalAction : Bool
  applyingServerUpdate : Bool
  isRequestingSync : Bool
  hasInteracted : Bool
  needsUserInteraction : Bool
  isPlayingUI : Bool
  currentVideoId : String
  playerPresent : Bool
  playerReady : Bool
  playerReadyUI : Bool
  socketPresent : Bool
  socketConnected : Bool
deriving Repr, DecidableEq

/-- A command issued to the playback surface. -/
inductive Cmd where
  | seekTo (t : ℚ)
  | play
  | pause
deriving Repr, DecidableEq

/-- An outbound socket emission. -/
inductive Emit where
  | play (currentTime : ℚ)
  | pause (currentTime : ℚ)
  | seek (currentTime : ℚ)
deriving Repr, DecidableEq

/-- A timer scheduled by setTimeout to clear a suppression flag. -/
inductive TimerKind where
  | clearApplying
  | clearLocal
deriving Repr, DecidableEq

/-- Delay in milliseconds of each flag-clearing timer (200 and 100 in the
source). -/
def timerDelayMs : TimerKind → Nat
  | .clearApplying => 200
  | .clearLocal => 100

/-- Result of running one handler: final state, surface commands in issue
order, socket emissions, scheduled flag-clearing timers, and whether an
exception escaped the handler. -/
structure Effects where
  state : RState
  cmds : List Cmd
  emits : List Emit
  timers : List TimerKind
  threw : Bool
deriving Repr, DecidableEq

/-- A run that changes the state to st and does nothing else. -/
def noEffects (st : RState) : Effects := ⟨st, [], [], [], false⟩

/-- computeTargetTime from the source: paused snapshots freeze the time;
playing snapshots extrapolate by the coordinator-clock gap. -/
def computeTargetTime (snapshot : Snapshot) : ℚ :=
  if !snapshot.isPlaying then
    snapshot.playbackTimeAtLastEvent
  else
    let elapsedMs := snapshot.serverTime - snapshot.lastEventAt
    snapshot.playbackTimeAtLastEvent + elapsedMs / 1000

/-- The play/pause tail of applySnapshot: force the surface into the
snapshot playing state, mirror it into the isPlaying React state, and
schedule the 200ms timer clearing applyingServerUpdate.  A throw skips
the mirror and the timer. -/
def applyPlayPause (surf : Surface) (st : RState) (snapshot : Snapshot)
    (acc : List Cmd) : Effects :=
  if snapshot.isPlaying then
    if surf.playThrows then ⟨st, acc ++ [.play], [], [], true⟩
    else ⟨{ st with isPlayingUI := true }, acc ++ [.play], [],
          [.clearApplying], false⟩
  else
    if surf.pauseThrows then ⟨st, acc ++ [.pause], [], [], true⟩
    else ⟨{ st with isPlayingUI := false }, acc ++ [.pause], [],
          [.clearApplying], false⟩

/-- Body of applySnapshot once the surface is known present and ready:
drift-corrected seek followed by forced play/pause. -/
def applySnapshotReady (surf : Surface) (st : RState)
    (snapshot : Snapshot) : Effects :=
  let targetTime := computeTargetTime snapshot
  let drift := |targetTime - surf.currentTime|
  if drift > 35 / 100 then
    if surf.seekThrows then ⟨st, [.seekTo targetTime], [], [], true⟩
    else applyPlayPause surf st snapshot [.seekTo targetTime]
  else
    applyPlayPause surf st snapshot []

/-- applySnapshot from the source: store the snapshot when the player is
absent or not ready; otherwise raise applyingServerUpdate and run the
drift-corrected application. -/
def applySnapshot (surf : Surface) (st : RState) (snapshot : Snapshot) :
    Effects :=
  if !st.playerPresent || !st.playerReady then
    noEffects { st with latestSessionState := some snapshot }
  else
    applySnapshotReady surf { st with applyingServerUpdate := true } snapshot

/-- JS truthiness of the optional videoId field: absent or empty is falsy. -/
def videoTruthy : Option String → Bool
  | none => false
  | some s => s ≠ ""

/-- The string carried by the videoId field (empty when absent). -/
def videoIdStr : Option String → String
  | none => ""
  | some s => s

/-- The video-change block of the session:state handler: when a truthy
videoId differs from the current one, adopt it (this schedules the player
re-initialization) and raise the pending-sync banner when the snapshot is
playing and the user has not interacted. -/
def videoChangeStep (st : RState) (snapshot : Snapshot) : RState :=
  if videoTruthy snapshot.videoId && videoIdStr snapshot.videoId ≠ st.currentVideoId then
    let st1 := { st with currentVideoId := videoIdStr snapshot.videoId }
    if snapshot.isPlaying && !st1.hasInteracted then
      { st1 with needsUserInteraction := true }
    else st1
  else st

/-- The session:state socket handler (the consume entry point of the
specification): staleness filter, version bump, video-change block,
readiness check, then the four disposition cases. -/
def onSessionState (surf : Surface) (st0 : RState) (snapshot : Snapshot) :
    Effects :=
  if snapshot.version ≤ st0.lastVersion then
    noEffects st0
  else
    let st := videoChangeStep { st0 with lastVersion := snapshot.version } snapshot
    if !st.playerReady then
      noEffects { st with latestSessionState := some snapshot }
    else if st.isRequestingSync && st.playerPresent && st.playerReady then
      let e := applySnapshot surf st snapshot
      if e.threw then e
      else { e with state := { e.state with isRequestingSync := false } }
    else if snapshot.isPlaying && !st.hasInteracted then
      noEffects { st with needsUserInteraction := true,
                          latestSessionState := some snapshot }
    else if st.playerPresent && st.playerReady && !st.applyingServerUpdate
            && !st.isLocalAction then
      applySnapshot surf st snapshot
    else
      noEffects st

/-- The disposition the session:state handler selects. -/
inductive Disp where
  | stale
  | storeNotReady
  | manualSync
  | gateDefer
  | normal
  | noop
deriving Repr, DecidableEq

/-- The disposition as a function of the incoming state and snapshot (the
video-change block touches none of the fields the guards read, so the
guards can be stated on the incoming state). -/
def consumeDisp (st0 : RState) (snapshot : Snapshot) : Disp :=
  if snapshot.version ≤ st0.lastVersion then .stale
  else if !st0.playerReady then .storeNotReady
  else if st0.isRequestingSync && st0.playerPresent && st0.playerReady then
    .manualSync
  else if snapshot.isPlaying && !st0.hasInteracted then .gateDefer
  else if st0.playerPresent && st0.playerReady && !st0.applyingServerUpdate
          && !st0.isLocalAction then .normal
  else .noop

/-- The onReady callback of the newly constructed player: mark ready and,
when a snapshot is cached, apply it directly and clear the cache (the
clear is skipped when the application throws). -/
def onPlayerReady (surf : Surface) (st0 : RState) : Effects :=
  let st := { st0 with playerReady := true, playerReadyUI := true }
  match st.latestSessionState with
  | none => noEffects st
  | some snapshot =>
      let e := applySnapshot surf st snapshot
      if e.threw then e
      else { e with state := { e.state with latestSessionState := none } }

/-- handlePlay from the source: guarded on player presence and a connected
socket; optimistic local play, then the outbound intent, then the 100ms
flag-clearing timer. -/
def handlePlay (surf : Surface) (st : RState) : Effects :=
  if !st.playerPresent || !st.socketPresent || !st.socketConnected then
    noEffects st
  else
    let st1 := { st with isLocalAction := true, hasInteracted := true,
                         needsUserInteraction := false }
    if surf.playThrows then ⟨st1, [.play], [], [], true⟩
    else ⟨{ st1 with isPlayingUI := true }, [.play],
          [.play surf.currentTime], [.clearLocal], false⟩

/-- handlePause from the source: same guard and pattern as handlePlay. -/
def handlePause (surf : Surface) (st : RState) : Effects :=
  if !st.playerPresent || !st.socketPresent || !st.socketConnected then
    noEffects st
  else
    let st1 := { st with isLocalAction := true }
    if surf.pauseThrows then ⟨st1, [.pause], [], [], true⟩
    else ⟨{ st1 with isPlayingUI := false }, [.pause],
          [.pause surf.currentTime], [.clearLocal], false⟩

/-- handleSeek from the source: relative seek from the current surface
time, then the outbound intent and the 100ms timer. -/
def handleSeek (surf : Surface) (st : RState) (seconds : ℚ) : Effects :=
  if !st.playerPresent || !st.socketPresent || !st.socketConnected then
    noEffects st
  else
    let st1 := { st with isLocalAction := true }
    let t := surf.currentTime + seconds
    if surf.seekThrows then ⟨st1, [.seekTo t], [], [], true⟩
    else ⟨st1, [.seekTo t], [.seek t], [.clearLocal], false⟩

/-- Outcome of one initPlayer attempt. -/
inductive InitOutcome where
  | retryScheduled (delayMs : Nat)
  | created
  | constructErrorReported
deriving Repr, DecidableEq

/-- One attempt of initPlayer: a missing container schedules a 500ms
retry; a throwing constructor is caught and reported (no retry);
otherwise the player is created. -/
def initPlayerStep (containerPresent : Bool) (constructorThrows : Bool) :
    InitOutcome :=
  if !containerPresent then .retryScheduled 500
  else if constructorThrows then .constructErrorReported
  else .created

/-- The retry chain of initPlayer, as the outcome of attempt n under a
schedule of container availability: attempt n runs exactly when every
earlier attempt scheduled a retry, and its outcome is the step on the
container state seen at attempt n. -/
def initPlayerAttempt (containerAt : Nat → Bool) (constructorThrows : Bool)
    (n : Nat) : InitOutcome :=
  initPlayerStep (containerAt n) constructorThrows

/-- A quiet surface: time 0, no command throws. -/
def surfQuiet : Surface :=
  { currentTime := 0, seekThrows := false, playThrows := false,
    pauseThrows := false }

/-- A base client state with everything cleared. -/
def stBase : RState :=
  { lastVersion := 0, latestSessionState := none, isLocalAction := false,
    applyingServerUpdate := false, isRequestingSync := false,
    hasInteracted := false, needsUserInteraction := false,
    isPlayingUI := false, currentVideoId := "", playerPresent := false,
    playerReady := false, playerReadyUI := false, socketPresent := false,
    socketConnected := false }

/-- A state with a present, ready player, a connected socket and a past
user interaction. -/
def stReady : RState :=
  { stBase with playerPresent := true, playerReady := true,
                hasInteracted := true, socketPresent := true,
                socketConnected := true }

/-- A playing snapshot whose extrapolated target is 10.2 seconds. -/
def snapPlay102 : Snapshot :=
  { version := 5, videoId := none, isPlaying := true,
    playbackTimeAtLastEvent := 10, lastEventAt := 1000, serverTime := 1200 }

/-- A paused snapshot carrying a new videoId. -/
def snapPause50 : Snapshot :=
  { version := 7, videoId := some "b", isPlaying := false,
    playbackTimeAtLastEvent := 50, lastEventAt := 0, serverTime := 0 }

/-- A ready client currently on video a. -/
def stOldVideo : RState :=
  { stBase with currentVideoId := "a", playerPresent := true,
                playerReady := true, hasInteracted := true, lastVersion := 1 }

/-- A playing snapshot, target 10 seconds. -/
def snapPlayGate : Snapshot :=
  { version := 5, videoId := some "v", isPlaying := true,
    playbackTimeAtLastEvent := 10, lastEventAt := 0, serverTime := 0 }

/-- A client that has never interacted, with a cached playing snapshot and
a surface still constructing. -/
def stGate : RState :=
  { stBase with playerPresent := true, playerReady := false,
                latestSessionState := some snapPlayGate, lastVersion := 5 }

/-- A ready client that has never interacted, with nothing cached. -/
def stGateReady : RState :=
  { stBase with playerPresent := true, playerReady := true }

/-- A surface whose playVideo call throws. -/
def surfPlayThrows : Surface :=
  { currentTime := 0, seekThrows := false, playThrows := true,
    pauseThrows := false }

/-- A playing snapshot with zero drift against surface time 0. -/
def snapPlayNoDrift : Snapshot :=
  { version := 3, videoId := none, isPlaying := true,
    playbackTimeAtLastEvent := 0, lastEventAt := 0, serverTime := 0 }

/-- A client mid local action, with a cached snapshot and a surface about
to signal readiness. -/
def stLocalFlush : RState :=
  { stBase with playerPresent := true, isLocalAction := true,
                hasInteracted := true,
                latestSessionState := some snapPause50 }

/-- A surface drifted 0.36 seconds behind the target of snapPause50. -/
def surf36 : Surface :=
  { currentTime := 50 - 36 / 100, seekThrows := false, playThrows := false,
    pauseThrows := false }

/-- A surface drifted 0.34 seconds behind the target of snapPause50. -/
def surf34 : Surface :=
  { currentTime := 50 - 34 / 100, seekThrows := false, playThrows := false,
    pauseThrows := false }

@[simp] lemma videoChangeStep_lastVersion (st : RState) (snapshot : Snapshot) :
    (videoChangeStep st snapshot).lastVersion = st.lastVersion := by
  simp only [videoChangeStep]; split_ifs <;> rfl

@[simp] lemma videoChangeStep_latestSessionState (st : RState) (snapshot : Snapshot) :
    (videoChangeStep st snapshot).latestSessionState = st.latestSessionState := by
  simp only [videoChangeStep]; split_ifs <;> rfl

@[simp] lemma videoChangeStep_playerReady (st : RState) (snapshot : Snapshot) :
    (videoChangeStep st snapshot).playerReady = st.playerReady := by
  simp only [videoChangeStep]; split_ifs <;> rfl

@[simp] lemma videoChangeStep_playerPresent (st : RState) (snapshot : Snapshot) :
    (videoChangeStep st snapshot).playerPresent = st.playerPresent := by
  simp only [videoChangeStep]; split_ifs <;> rfl

@[simp] lemma videoChangeStep_isRequestingSync (st : RState) (snapshot : Snapshot) :
    (videoChangeStep st snapshot).isRequestingSync = st.isRequestingSync := by
  simp only [videoChangeStep]; split_ifs <;> rfl

@[simp] lemma videoChangeStep_hasInteracted (st : RState) (snapshot : Snapshot) :
    (videoChangeStep st snapshot).hasInteracted = st.hasInteracted := by
  simp only [videoChangeStep]; split_ifs <;> rfl

@[simp] lemma videoChangeStep_applyingServerUpdate (st : RState) (snapshot : Snapshot) :
    (videoChangeStep st snapshot).applyingServerUpdate = st.applyingServerUpdate := by
  simp only [videoChangeStep]; split_ifs <;> rfl

@[simp] lemma videoChangeStep_isLocalAction (st : RState) (snapshot : Snapshot) :
    (videoChangeStep st snapshot).isLocalAction = st.isLocalAction := by
  simp only [videoChangeStep]; split_ifs <;> rfl

@[simp] lemma applySnapshot_state_lastVersion (surf : Surface) (st : RState)
    (snapshot : Snapshot) :
    (applySnapshot surf st snapshot).state.lastVersion = st.lastVersion := by
  simp only [applySnapshot, applySnapshotReady, applyPlayPause, noEffects]
  split_ifs <;> rfl

@[simp] lemma applySnapshot_state_currentVideoId (surf : Surface) (st : RState)
    (snapshot : Snapshot) :
    (applySnapshot surf st snapshot).state.currentVideoId = st.currentVideoId := by
  simp only [applySnapshot, applySnapshotReady, applyPlayPause, noEffects]
  split_ifs <;> rfl

lemma onSessionState_eq (surf : Surface) (st0 : RState) (snapshot : Snapshot) :
    onSessionState surf st0 snapshot =
      (match consumeDisp st0 snapshot with
       | .stale => noEffects st0
       | .storeNotReady =>
           noEffects { videoChangeStep { st0 with lastVersion := snapshot.version }
                         snapshot with
                       latestSessionState := some snapshot }
       | .manualSync =>
           let e := applySnapshot surf
             (videoChangeStep { st0 with lastVersion := snapshot.version } snapshot)
             snapshot
           if e.threw then e
           else { e with state := { e.state with isRequestingSync := false } }
       | .gateDefer =>
           noEffects { videoChangeStep { st0 with lastVersion := snapshot.version }
                         snapshot with
                       needsUserInteraction := true,
                       latestSessionState := some snapshot }
       | .normal =>
           applySnapshot surf
             (videoChangeStep { st0 with lastVersion := snapshot.version } snapshot)
             snapshot
       | .noop =>
           noEffects (videoChangeStep { st0 with lastVersion := snapshot.version }
             snapshot)) := by
  simp only [onSessionState, consumeDisp, videoChangeStep_playerReady,
    videoChangeStep_playerPresent, videoChangeStep_isRequestingSync,
    videoChangeStep_hasInteracted, videoChangeStep_applyingServerUpdate,
    videoChangeStep_isLocalAction]
  split_ifs <;> rfl

lemma consumeDisp_manualSync_imp (st0 : RState) (snapshot : Snapshot)
    (h : consumeDisp st0 snapshot = .manualSync) :
    st0.isRequestingSync = true := by
  simp only [consumeDisp] at h
  split_ifs at h <;> simp_all

lemma consumeDisp_normal_imp (st0 : RState) (snapshot : Snapshot)
    (h : consumeDisp st0 snapshot = .normal) :
    (snapshot.isPlaying = false ∨ st0.hasInteracted = true) ∧
    st0.isLocalAction = false := by
  simp only [consumeDisp] at h
  split_ifs at h <;> simp_all
  rcases Bool.eq_false_or_eq_true snapshot.isPlaying with hb | hb <;> simp_all

lemma consumeDisp_eq_gateDefer (st0 : RState) (snapshot : Snapshot)
    (hfresh : st0.lastVersion < snapshot.version)
    (hready : st0.playerReady = true) (hs : st0.isRequestingSync = false)
    (hplay : snapshot.isPlaying = true) (hi : st0.hasInteracted = false) :
    consumeDisp st0 snapshot = .gateDefer := by
  simp [consumeDisp, hfresh.not_le, hready, hs, hplay, hi]

lemma onSessionState_stale (surf : Surface) (st : RState) (snapshot : Snapshot)
    (h : snapshot.version ≤ st.lastVersion) :
    onSessionState surf st snapshot = noEffects st := by
  simp only [onSessionState, if_pos h]

lemma onSessionState_state_lastVersion (surf : Surface) (st : RState)
    (snapshot : Snapshot) (h : st.lastVersion < snapshot.version) :
    (onSessionState surf st snapshot).state.lastVersion = snapshot.version := by
  simp only [onSessionState, if_neg (not_le.mpr h)]
  split_ifs <;> simp [noEffects]

lemma applySnapshot_cmds_of_ready (surf : Surface) (st : RState)
    (snapshot : Snapshot) (hp : st.playerPresent = true)
    (hr : st.playerReady = true) (hn : surf.noThrow) :
    (applySnapshot surf st snapshot).cmds
      = (if |computeTargetTime snapshot - surf.currentTime| > 35 / 100
         then [Cmd.seekTo (computeTargetTime snapshot)] else [])
        ++ [if snapshot.isPlaying then Cmd.play else Cmd.pause] := by
  obtain ⟨hs, hpl, hpa⟩ := hn
  simp only [applySnapshot, hp, hr, Bool.not_true, Bool.or_self, Bool.false_or,
    if_false, applySnapshotReady, applyPlayPause, hs, hpl, hpa]
  split_ifs <;> simp_all

lemma applySnapshot_play_notin (surf : Surface) (st : RState)
    (snapshot : Snapshot) (hb : snapshot.isPlaying = false) :
    Cmd.play ∉ (applySnapshot surf st snapshot).cmds := by
  simp only [applySnapshot, applySnapshotReady, applyPlayPause, hb]
  split_ifs <;> simp_all [noEffects]

lemma consumeDisp_stale_imp (st0 : RState) (snapshot : Snapshot)
    (h : consumeDisp st0 snapshot = .stale) :
    snapshot.version ≤ st0.lastVersion := by
  simp only [consumeDisp] at h
  split_ifs at h <;> simp_all

lemma consumeDisp_eq_storeNotReady (st0 : RState) (snapshot : Snapshot)
    (hfresh : st0.lastVersion < snapshot.version)
    (hnr : st0.playerReady = false) :
    consumeDisp st0 snapshot = .storeNotReady := by
  simp [consumeDisp, hfresh.not_le, hnr]

lemma videoChangeStep_currentVideoId_set (st : RState) (snapshot : Snapshot)
    (hv : videoTruthy snapshot.videoId = true)
    (hd : videoIdStr snapshot.videoId ≠ st.currentVideoId) :
    (videoChangeStep st snapshot).currentVideoId = videoIdStr snapshot.videoId := by
  have hc : (videoTruthy snapshot.videoId
      && videoIdStr snapshot.videoId ≠ st.currentVideoId) = true := by
    simp [hv, hd]
  simp only [videoChangeStep, hc, eq_self_iff_true, if_true]
  split_ifs <;> rfl

lemma applySnapshot_threw_false (surf : Surface) (st : RState)
    (snapshot : Snapshot) (hn : surf.noThrow) :
    (applySnapshot surf st snapshot).threw = false := by
  obtain ⟨hs, hpl, hpa⟩ := hn
  simp only [applySnapshot, applySnapshotReady, applyPlayPause, noEffects,
    hs, hpl, hpa]
  split_ifs <;> simp_all

lemma applySnapshot_threw_false_rw (surf : Surface) (hn : surf.noThrow)
    (st : RState) (snapshot : Snapshot) :
    (applySnapshot surf st snapshot).threw = false :=
  applySnapshot_threw_false surf st snapshot hn

lemma applySnapshot_cmds_rw (surf : Surface) (hn : surf.noThrow)
    (st : RState) (snapshot : Snapshot) (hp : st.playerPresent = true)
    (hr : st.playerReady = true) :
    (applySnapshot surf st snapshot).cmds
      = (if |computeTargetTime snapshot - surf.currentTime| > 35 / 100
         then [Cmd.seekTo (computeTargetTime snapshot)] else [])
        ++ [if snapshot.isPlaying then Cmd.play else Cmd.pause] :=
  applySnapshot_cmds_of_ready surf st snapshot hp hr hn

lemma onSessionState_cmds_nil_of_localAction (surf : Surface) (st0 : RState)
    (snapshot : Snapshot) (hl : st0.isLocalAction = true)
    (hs : st0.isRequestingSync = false) :
    (onSessionState surf st0 snapshot).cmds = [] := by
  cases hd : consumeDisp st0 snapshot
  all_goals rw [onSessionState_eq, hd]
  · rfl
  · rfl
  · exact absurd (consumeDisp_manualSync_imp st0 snapshot hd) (by simp [hs])
  · rfl
  · exact absurd (consumeDisp_normal_imp st0 snapshot hd).2 (by simp [hl])
  · rfl

/-- C1: a snapshot with version at most lastAppliedVersion is discarded
with no surface command and no state change; otherwise lastAppliedVersion
is set to the snapshot version on every path, so a redelivery of the same
version is a complete no-op. -/
theorem consume_staleness_filter (surf surf2 : Surface) (st : RState)
    (snapshot : Snapshot) :
    (snapshot.version ≤ st.lastVersion →
       onSessionState surf st snapshot = noEffects st) ∧
    (st.lastVersion < snapshot.version →
       (onSessionState surf st snapshot).state.lastVersion = snapshot.version ∧
       onSessionState surf2 (onSessionState surf st snapshot).state snapshot
         = noEffects ((onSessionState surf st snapshot).state)) := by
  refine ⟨fun h => onSessionState_stale surf st snapshot h, fun h => ?_⟩
  have hv := onSessionState_state_lastVersion surf st snapshot h
  exact ⟨hv, onSessionState_stale surf2 _ snapshot hv.ge⟩

/-- C1 witness: version 5 at lastVersion 5 is dropped outright; a fresh
version 7 bumps lastVersion and its redelivery is a no-op. -/
theorem consume_staleness_filter_witness :
    onSessionState surfQuiet stGate snapPlayGate = noEffects stGate ∧
    ((onSessionState surfQuiet stOldVideo snapPause50).state.lastVersion
        = snapPause50.version ∧
      onSessionState surfQuiet (onSessionState surfQuiet stOldVideo snapPause50).state
          snapPause50
        = noEffects ((onSessionState surfQuiet stOldVideo snapPause50).state)) :=
  ⟨(consume_staleness_filter surfQuiet surfQuiet stGate snapPlayGate).1 (by decide),
   (consume_staleness_filter surfQuiet surfQuiet stOldVideo snapPause50).2 (by decide)⟩

/-- C2: the target time equals playbackTimeAtLastEvent when paused, and
playbackTimeAtLastEvent plus the coordinator-clock gap over 1000 when
playing; the documented example yields 10.2 seconds. -/
theorem computeTargetTime_formula (snapshot : Snapshot) :
    (snapshot.isPlaying = false →
       computeTargetTime snapshot = snapshot.playbackTimeAtLastEvent) ∧
    (snapshot.isPlaying = true →
       computeTargetTime snapshot
         = snapshot.playbackTimeAtLastEvent
           + (snapshot.serverTime - snapshot.lastEventAt) / 1000) ∧
    computeTargetTime snapPlay102 = 102 / 10 := by
  refine ⟨fun h => ?_, fun h => ?_, by decide⟩
  · simp [computeTargetTime, h]
  · simp [computeTargetTime, h]

/-- C2 witness: the paused branch frozen at 50 and the playing branch at
the documented example. -/
theorem computeTargetTime_formula_witness :
    computeTargetTime snapPause50 = snapPause50.playbackTimeAtLastEvent ∧
    computeTargetTime snapPlay102
      = snapPlay102.playbackTimeAtLastEvent
        + (snapPlay102.serverTime - snapPlay102.lastEventAt) / 1000 :=
  ⟨(computeTargetTime_formula snapPause50).1 rfl,
   (computeTargetTime_formula snapPlay102).2.1 rfl⟩

/-- C3: on a ready surface, a seek is issued exactly when the drift
exceeds 0.35 seconds, any issued seek targets the computed time, and
exactly one of play or pause is always issued, matching the snapshot. -/
theorem applySnapshot_drift_correction (surf : Surface) (st : RState)
    (snapshot : Snapshot) (hp : st.playerPresent = true)
    (hr : st.playerReady = true) (hn : surf.noThrow) :
    ((∃ t, Cmd.seekTo t ∈ (applySnapshot surf st snapshot).cmds) ↔
       |computeTargetTime snapshot - surf.currentTime| > 35 / 100) ∧
    (∀ t, Cmd.seekTo t ∈ (applySnapshot surf st snapshot).cmds →
       t = computeTargetTime snapshot) ∧
    (snapshot.isPlaying = true →
       Cmd.play ∈ (applySnapshot surf st snapshot).cmds ∧
       Cmd.pause ∉ (applySnapshot surf st snapshot).cmds) ∧
    (snapshot.isPlaying = false →
       Cmd.pause ∈ (applySnapshot surf st snapshot).cmds ∧
       Cmd.play ∉ (applySnapshot surf st snapshot).cmds) := by
  rw [applySnapshot_cmds_of_ready surf st snapshot hp hr hn]
  refine ⟨⟨fun ht => ?_, fun ht => ?_⟩, fun t ht => ?_, fun h => ?_, fun h => ?_⟩
  · by_contra hc
    rw [if_neg hc] at ht
    obtain ⟨t, ht⟩ := ht
    cases hb : snapshot.isPlaying <;> simp [hb] at ht
  · exact ⟨computeTargetTime snapshot, by simp [if_pos ht]⟩
  · by_cases hc : |computeTargetTime snapshot - surf.currentTime| > 35 / 100 <;>
      cases hb : snapshot.isPlaying <;> simp [hc, hb] at ht <;> exact ht
  · simp [h]
  · simp [h]

/-- C3 witness: drift 0.36 issues a seek, drift 0.34 issues none, and the
pause command is issued either way for a paused snapshot. -/
theorem applySnapshot_drift_correction_witness :
    (∃ t, Cmd.seekTo t ∈ (applySnapshot surf36 stReady snapPause50).cmds) ∧
    ¬ (∃ t, Cmd.seekTo t ∈ (applySnapshot surf34 stReady snapPause50).cmds) ∧
    Cmd.pause ∈ (applySnapshot surf36 stReady snapPause50).cmds :=
  ⟨(applySnapshot_drift_correction surf36 stReady snapPause50 rfl rfl
      (by decide)).1.mpr (by decide),
   fun h => absurd ((applySnapshot_drift_correction surf34 stReady snapPause50 rfl rfl
      (by decide)).1.mp h) (by decide),
   ((applySnapshot_drift_correction surf36 stReady snapPause50 rfl rfl
      (by decide)).2.2.2 rfl).1⟩

/-- C4 counterexample: a client that has never interacted and has not
requested a manual sync, holding a cached playing snapshot, has play
issued on its surface by the readiness flush. -/
theorem onPlayerReady_play_without_interaction :
    stGate.hasInteracted = false ∧ stGate.isRequestingSync = false ∧
    Cmd.play ∈ (onPlayerReady surfQuiet stGate).cmds := by decide

/-- C4 amended: on the consume path, with no prior interaction and no
manual sync request, play is never issued; a playing snapshot reaching
the disposition is stored as pending and the pending-sync indicator is
raised.  The readiness flush, by contrast, applies the cached snapshot
directly and can issue play in that state (see the counterexample). -/
theorem consume_respects_interaction_gate (surf : Surface) (st : RState)
    (snapshot : Snapshot) (hi : st.hasInteracted = false)
    (hs : st.isRequestingSync = false) :
    Cmd.play ∉ (onSessionState surf st snapshot).cmds ∧
    (st.playerReady = true → snapshot.isPlaying = true →
       st.lastVersion < snapshot.version →
       (onSessionState surf st snapshot).cmds = [] ∧
       (onSessionState surf st snapshot).state.latestSessionState
         = some snapshot ∧
       (onSessionState surf st snapshot).state.needsUserInteraction = true) := by
  constructor
  · cases hd : consumeDisp st snapshot
    all_goals rw [onSessionState_eq, hd]
    · simp [noEffects]
    · simp [noEffects]
    · exact absurd (consumeDisp_manualSync_imp st snapshot hd) (by simp [hs])
    · simp [noEffects]
    · exact applySnapshot_play_notin surf _ snapshot
        ((consumeDisp_normal_imp st snapshot hd).1.resolve_right (by simp [hi]))
    · simp [noEffects]
  · intro hready hplay hfresh
    rw [onSessionState_eq,
      consumeDisp_eq_gateDefer st snapshot hfresh hready hs hplay hi]
    simp [noEffects]

/-- C4 witness: a fresh playing snapshot at a ready, never-interacted
client issues no command, is cached as pending and raises the indicator. -/
theorem consume_respects_interaction_gate_witness :
    Cmd.play ∉ (onSessionState surfQuiet stGateReady snapPlayGate).cmds ∧
    ((onSessionState surfQuiet stGateReady snapPlayGate).cmds = [] ∧
     (onSessionState surfQuiet stGateReady snapPlayGate).state.latestSessionState
       = some snapPlayGate ∧
     (onSessionState surfQuiet stGateReady snapPlayGate).state.needsUserInteraction
       = true) :=
  ⟨(consume_respects_interaction_gate surfQuiet stGateReady snapPlayGate rfl rfl).1,
   (consume_respects_interaction_gate surfQuiet stGateReady snapPlayGate rfl rfl).2
     rfl rfl (by decide)⟩

/-- C5 counterexample: a fresh snapshot carrying a different videoId does
not end the call after the hand-off: with the old surface still ready,
consume applies seek and pause to it in the same call and stores no
pendingSnapshot. -/
theorem media_change_applies_to_old_surface :
    videoTruthy snapPause50.videoId = true ∧
    videoIdStr snapPause50.videoId ≠ stOldVideo.currentVideoId ∧
    (onSessionState surfQuiet stOldVideo snapPause50).cmds
      = [Cmd.seekTo 50, Cmd.pause] ∧
    (onSessionState surfQuiet stOldVideo snapPause50).state.latestSessionState
      = none := by decide

/-- C5 amended: on a media change consume adopts the new id (handing off
to the player lifecycle effect) but does not return: the snapshot is
stored as pendingSnapshot, with no surface command or emission, only
when the surface is not ready; a still-ready old surface instead falls
through to the disposition cases of the same call (see the
counterexample). -/
theorem media_change_handoff (surf : Surface) (st : RState)
    (snapshot : Snapshot) (hv : videoTruthy snapshot.videoId = true)
    (hd : videoIdStr snapshot.videoId ≠ st.currentVideoId)
    (hfresh : st.lastVersion < snapshot.version) :
    (onSessionState surf st snapshot).state.currentVideoId
      = videoIdStr snapshot.videoId ∧
    (st.playerReady = false →
       (onSessionState surf st snapshot).cmds = [] ∧
       (onSessionState surf st snapshot).emits = [] ∧
       (onSessionState surf st snapshot).state.latestSessionState
         = some snapshot) := by
  have hv2 : (videoChangeStep { st with lastVersion := snapshot.version }
      snapshot).currentVideoId = videoIdStr snapshot.videoId :=
    videoChangeStep_currentVideoId_set _ snapshot hv hd
  constructor
  · cases hdisp : consumeDisp st snapshot
    all_goals rw [onSessionState_eq, hdisp]
    · exact absurd (consumeDisp_stale_imp st snapshot hdisp) (not_le.mpr hfresh)
    · simpa [noEffects] using hv2
    · dsimp only
      split_ifs <;> simp [hv2]
    · simpa [noEffects] using hv2
    · simp [hv2]
    · simpa [noEffects] using hv2
  · intro hnotready
    rw [onSessionState_eq, consumeDisp_eq_storeNotReady st snapshot hfresh hnotready]
    simp [noEffects]

/-- C5 witness: a new videoId arriving while the surface for it is not
yet ready is adopted and cached with no surface command. -/
theorem media_change_handoff_witness :
    (onSessionState surfQuiet stGate snapPause50).state.currentVideoId
      = videoIdStr snapPause50.videoId ∧
    ((onSessionState surfQuiet stGate snapPause50).cmds = [] ∧
     (onSessionState surfQuiet stGate snapPause50).emits = [] ∧
     (onSessionState surfQuiet stGate snapPause50).state.latestSessionState
       = some snapPause50) :=
  ⟨(media_change_handoff surfQuiet stGate snapPause50 rfl (by decide) (by decide)).1,
   (media_change_handoff surfQuiet stGate snapPause50 rfl (by decide) (by decide)).2
     rfl⟩

/-- C6 counterexample: the readiness flush issues surface commands in a
state where the disposition logic would select the no-op case (local
action in flight, no manual sync), so the flush does not pass through
the reconciler disposition checks. -/
theorem onPlayerReady_flush_bypasses_flags :
    stLocalFlush.isLocalAction = true ∧
    consumeDisp { stLocalFlush with playerReady := true } snapPause50
      = Disp.noop ∧
    (onPlayerReady surfQuiet stLocalFlush).cmds ≠ [] := by decide

/-- C6 amended: on readiness a cached pendingSnapshot is applied directly
through applySnapshot (drift correction plus forced play/pause),
bypassing the staleness, interaction-gate and suppression-flag checks of
the disposition logic, and is then cleared. -/
theorem onPlayerReady_flush_direct (surf : Surface) (st : RState)
    (snapshot : Snapshot) (hp : st.latestSessionState = some snapshot)
    (hpl : st.playerPresent = true) (hn : surf.noThrow) :
    (onPlayerReady surf st).state.latestSessionState = none ∧
    (onPlayerReady surf st).cmds
      = (applySnapshot surf
          { st with playerReady := true, playerReadyUI := true } snapshot).cmds ∧
    (if snapshot.isPlaying then Cmd.play else Cmd.pause)
      ∈ (onPlayerReady surf st).cmds := by
  refine ⟨?_, ?_, ?_⟩
  · simp [onPlayerReady, hp, applySnapshot_threw_false_rw surf hn]
  · simp [onPlayerReady, hp, applySnapshot_threw_false_rw surf hn]
  · simp only [onPlayerReady, hp, applySnapshot_threw_false_rw surf hn,
      Bool.false_eq_true, if_false]
    simp only [applySnapshot_cmds_rw surf hn, hpl]
    cases hb : snapshot.isPlaying <;> simp [hb]

/-- C6 witness: a never-interacted client with a cached playing snapshot
has it applied and cleared by the readiness flush. -/
theorem onPlayerReady_flush_direct_witness :
    (onPlayerReady surfQuiet stGate).state.latestSessionState = none ∧
    (if snapPlayGate.isPlaying then Cmd.play else Cmd.pause)
      ∈ (onPlayerReady surfQuiet stGate).cmds :=
  ⟨(onPlayerReady_flush_direct surfQuiet stGate snapPlayGate rfl rfl (by decide)).1,
   (onPlayerReady_flush_direct surfQuiet stGate snapPlayGate rfl rfl (by decide)).2.2⟩

/-- C7 counterexample: a playVideo call that throws leaves
isApplyingRemoteUpdate set with no clearing timer scheduled on the apply
path, and isLocalActionInFlight set with no clearing timer scheduled in
handlePlay; the exception escapes in both cases. -/
theorem thrown_command_leaves_flag_set :
    ((applySnapshot surfPlayThrows stReady snapPlayNoDrift).state.applyingServerUpdate
        = true ∧
     (applySnapshot surfPlayThrows stReady snapPlayNoDrift).timers = [] ∧
     (applySnapshot surfPlayThrows stReady snapPlayNoDrift).threw = true) ∧
    ((handlePlay surfPlayThrows stReady).state.isLocalAction = true ∧
     (handlePlay surfPlayThrows stReady).timers = [] ∧
     (handlePlay surfPlayThrows stReady).threw = true) := by decide

/-- C7 amended: when no surface command throws, the apply path schedules
the 200ms timer clearing isApplyingRemoteUpdate and every local handler
schedules the 100ms timer clearing isLocalActionInFlight; a throwing
command, however, propagates uncaught and the clearing timer is not
scheduled, leaving the flag set (see the counterexample). -/
theorem flags_cleared_when_no_throw (surf : Surface) (st : RState)
    (snapshot : Snapshot) (s : ℚ) (hn : surf.noThrow) :
    (st.playerPresent = true → st.playerReady = true →
       TimerKind.clearApplying ∈ (applySnapshot surf st snapshot).timers) ∧
    (st.playerPresent = true → st.socketPresent = true →
       st.socketConnected = true →
       TimerKind.clearLocal ∈ (handlePlay surf st).timers ∧
       TimerKind.clearLocal ∈ (handlePause surf st).timers ∧
       TimerKind.clearLocal ∈ (handleSeek surf st s).timers) ∧
    timerDelayMs TimerKind.clearApplying = 200 ∧
    timerDelayMs TimerKind.clearLocal = 100 := by
  obtain ⟨hse, hpl, hpa⟩ := hn
  refine ⟨fun hp hr => ?_, fun hp hso hsc => ?_, rfl, rfl⟩
  · simp only [applySnapshot, applySnapshotReady, applyPlayPause, hp, hr,
      hse, hpl, hpa]
    split_ifs <;> simp_all
  · simp [handlePlay, handlePause, handleSeek, hp, hso, hsc, hse, hpl, hpa]

/-- C7 witness: with a quiet surface the clearing timers are scheduled on
both the apply path and the local play handler. -/
theorem flags_cleared_when_no_throw_witness :
    TimerKind.clearApplying
      ∈ (applySnapshot surfQuiet stReady snapPlayNoDrift).timers ∧
    TimerKind.clearLocal ∈ (handlePlay surfQuiet stReady).timers :=
  ⟨(flags_cleared_when_no_throw surfQuiet stReady snapPlayNoDrift 10
      (by decide)).1 rfl rfl,
   ((flags_cleared_when_no_throw surfQuiet stReady snapPlayNoDrift 10
      (by decide)).2.1 rfl rfl rfl).1⟩

/-- C8: with a present player, a connected socket and a surface that does
not throw, each local handler raises isLocalActionInFlight, issues its
surface command, emits its outbound intent and schedules the 100ms
clearing timer; and while the flag is raised (and no manual sync is
pending) an inbound snapshot issues no surface command. -/
theorem local_action_tracker (surf : Surface) (st : RState)
    (snapshot : Snapshot) (s : ℚ) (hp : st.playerPresent = true)
    (hso : st.socketPresent = true) (hsc : st.socketConnected = true)
    (hn : surf.noThrow) :
    ((handlePlay surf st).state.isLocalAction = true ∧
     (handlePlay surf st).cmds = [Cmd.play] ∧
     (handlePlay surf st).emits = [Emit.play surf.currentTime] ∧
     (handlePlay surf st).timers = [TimerKind.clearLocal]) ∧
    ((handlePause surf st).state.isLocalAction = true ∧
     (handlePause surf st).cmds = [Cmd.pause] ∧
     (handlePause surf st).emits = [Emit.pause surf.currentTime] ∧
     (handlePause surf st).timers = [TimerKind.clearLocal]) ∧
    ((handleSeek surf st s).state.isLocalAction = true ∧
     (handleSeek surf st s).cmds = [Cmd.seekTo (surf.currentTime + s)] ∧
     (handleSeek surf st s).emits = [Emit.seek (surf.currentTime + s)] ∧
     (handleSeek surf st s).timers = [TimerKind.clearLocal]) ∧
    timerDelayMs TimerKind.clearLocal = 100 ∧
    (st.isLocalAction = true → st.isRequestingSync = false →
       (onSessionState surf st snapshot).cmds = []) := by
  obtain ⟨hse, hpl, hpa⟩ := hn
  refine ⟨?_, ?_, ?_, rfl,
    fun hl hs => onSessionState_cmds_nil_of_localAction surf st snapshot hl hs⟩
  · simp [handlePlay, hp, hso, hsc, hpl]
  · simp [handlePause, hp, hso, hsc, hpa]
  · simp [handleSeek, hp, hso, hsc, hse]

/-- C8 witness: the three handlers at a ready connected client, and a
snapshot arriving while the local-action flag is set. -/
theorem local_action_tracker_witness :
    (handlePlay surfQuiet stReady).cmds = [Cmd.play] ∧
    (handlePause surfQuiet stReady).emits = [Emit.pause surfQuiet.currentTime] ∧
    (handleSeek surfQuiet stReady 10).timers = [TimerKind.clearLocal] ∧
    (onSessionState surfQuiet { stReady with isLocalAction := true }
        snapPause50).cmds = [] :=
  ⟨((local_action_tracker surfQuiet stReady snapPause50 10 rfl rfl rfl
      (by decide)).1).2.1,
   ((local_action_tracker surfQuiet stReady snapPause50 10 rfl rfl rfl
      (by decide)).2.1).2.2.1,
   ((local_action_tracker surfQuiet stReady snapPause50 10 rfl rfl rfl
      (by decide)).2.2.1).2.2.2,
   (local_action_tracker surfQuiet { stReady with isLocalAction := true }
      snapPause50 10 rfl rfl rfl (by decide)).2.2.2.2 rfl rfl⟩

/-- C9 counterexample: under a schedule in which the hosting container
never appears, every initPlayer attempt schedules another 500ms retry;
no attempt ever reports a fatal construction error, so the retry
sequence does not terminate. -/
theorem init_retry_never_terminates :
    ¬ ∃ n, initPlayerAttempt (fun _ => false) false n
        ≠ InitOutcome.retryScheduled 500 := by
  rintro ⟨n, hn⟩
  exact hn rfl

/-- C9 amended: a missing container always schedules another fixed 500ms
retry, with no attempt bound and no fatal report on that path; a
constructor exception with the container present is caught and reported
at once, without scheduling a retry. -/
theorem init_retry_unbounded (containerAt : Nat → Bool) (ct : Bool) (n : Nat)
    (h : containerAt n = false) :
    initPlayerAttempt containerAt ct n = InitOutcome.retryScheduled 500 ∧
    initPlayerStep true true = InitOutcome.constructErrorReported ∧
    initPlayerStep true false = InitOutcome.created := by
  refine ⟨?_, rfl, rfl⟩
  simp [initPlayerAttempt, initPlayerStep, h]

/-- C9 witness: attempt 100 of an always-missing container still only
schedules the next 500ms retry. -/
theorem init_retry_unbounded_witness :
    initPlayerAttempt (fun _ => false) false 100
      = InitOutcome.retryScheduled 500 :=
  (init_retry_unbounded (fun _ => false) false 100 rfl).1

/-- C10: with the player absent, or the socket missing or disconnected,
each local handler is a complete no-op: state unchanged, no surface
command, no emission, no timer. -/
theorem handler_guard_noop (surf : Surface) (st : RState) (s : ℚ)
    (h : st.playerPresent = false ∨ st.socketPresent = false ∨
         st.socketConnected = false) :
    handlePlay surf st = noEffects st ∧
    handlePause surf st = noEffects st ∧
    handleSeek surf st s = noEffects st := by
  have hg : (!st.playerPresent || !st.socketPresent || !st.socketConnected)
      = true := by
    rcases h with h | h | h <;> simp [h]
  refine ⟨?_, ?_, ?_⟩ <;> simp [handlePlay, handlePause, handleSeek, hg]

/-- C10 witness: the base state has no player and no socket, and all
three handlers leave it untouched with no effect. -/
theorem handler_guard_noop_witness :
    handlePlay surfQuiet stBase = noEffects stBase ∧
    handlePause surfQuiet stBase = noEffects stBase ∧
    handleSeek surfQuiet stBase 5 = noEffects stBase :=
  handler_guard_noop surfQuiet stBase 5 (Or.inl rfl)
